import Mathlib

/-!
A shallow embedding of the Sina C++ data model and its tree-serialization
engine (cpp/src of the repository), together with proofs settling the frozen
claims about it.  The hierarchical value tree (conduit) is modelled as a
JSON-like inductive: object nodes with named children, list nodes, string and
number leaves, and the distinguished empty node.  Fetching a missing child of
a node yields an empty node, matching how the repository's code and tests use
the tree library (`if (!node.dtype().is_empty())` after a fetch).  Doubles are
modelled as rationals: the code only stores and compares them, never computes.
Throwing `std::invalid_argument` is modelled with `Except SinaError`.
-/

namespace Sina

/-- A conduit-style hierarchical tree node: empty, string leaf, number leaf,
list, or object with named children (insertion order kept). -/
inductive Node where
  | empty : Node
  | string (s : String) : Node
  | number (x : Rat) : Node
  | list (elems : List Node) : Node
  | object (fields : List (String × Node)) : Node

/-- Model of `dtype().is_empty()`. -/
def Node.isEmptyNode : Node → Bool
  | .empty => true
  | _ => false

/-- Model of `dtype().is_string()`. -/
def Node.isString : Node → Bool
  | .string _ => true
  | _ => false

/-- Model of `dtype().is_number()`. -/
def Node.isNumber : Node → Bool
  | .number _ => true
  | _ => false

/-- Model of `dtype().is_list()`. -/
def Node.isList : Node → Bool
  | .list _ => true
  | _ => false

/-- Model of `dtype().is_object()`. -/
def Node.isObject : Node → Bool
  | .object _ => true
  | _ => false

/-- Model of `dtype().name()`, used only inside error messages. -/
def Node.dtypeName : Node → String
  | .empty => "empty"
  | .string _ => "char8_str"
  | .number _ => "float64"
  | .list _ => "list"
  | .object _ => "object"

/-- The string payload of a string node (model of `std::string(node.value())`,
only ever applied to string nodes on the proven paths). -/
def Node.asString : Node → String
  | .string s => s
  | _ => ""

/-- The numeric payload of a number node (model of `double(node.value())`). -/
def Node.asNumber : Node → Rat
  | .number x => x
  | _ => 0

/-- The named children of an object node. -/
def Node.objectFields : Node → List (String × Node)
  | .object kvs => kvs
  | _ => []

/-- The child nodes traversed by `node.children()`: the values of an object,
the elements of a list. -/
def Node.childNodes : Node → List Node
  | .object kvs => kvs.map Prod.snd
  | .list xs => xs
  | _ => []

/-- Insert-or-replace in an association list, keeping the position of an
existing key (model of assigning through `node[name]` / `add_child`). -/
def setAssoc {α : Type} : List (String × α) → String → α → List (String × α)
  | [], name, v => [(name, v)]
  | (k, w) :: rest, name, v =>
    if k = name then (name, v) :: rest else (k, w) :: setAssoc rest name v

/-- Model of `node.has_child(name)`. -/
def Node.hasChild (n : Node) (name : String) : Bool :=
  (n.objectFields.lookup name).isSome

/-- Model of fetching `node[name]` as the repository uses it on const nodes:
the child when present, an empty node otherwise. -/
def Node.fetchChild (n : Node) (name : String) : Node :=
  (n.objectFields.lookup name).getD Node.empty

/-- Model of assigning `node[name] = v` (creates the child or replaces it;
a fresh node becomes an object). -/
def Node.setChild (n : Node) (name : String) (v : Node) : Node :=
  .object (setAssoc n.objectFields name v)

/-- Model of `node.append()` followed by setting the appended entry: an empty
node becomes a one-element list, a list grows at the end. -/
def Node.appendElement (n : Node) (child : Node) : Node :=
  match n with
  | .list xs => .list (xs ++ [child])
  | _ => .list [child]

/-- Appending to `parent[name]` as `Document::toNode` does: fetch-or-create
the child and append one element to it. -/
def Node.appendToListChild (parent : Node) (name : String) (child : Node) : Node :=
  parent.setChild name ((parent.fetchChild name).appendElement child)

/-- The one error kind the modelled code raises (`std::invalid_argument`). -/
inductive SinaError where
  | invalidArgument (message : String) : SinaError
deriving DecidableEq

/-- Result of a fallible operation. -/
abbrev SinaResult (α : Type) := Except SinaError α

/-- ConduitUtil.cpp `getExpectedString`. -/
def getExpectedString (field : Node) (fieldName parentType : String) :
    SinaResult String :=
  if field.isString then .ok field.asString
  else .error (.invalidArgument ("The field '" ++ fieldName ++
    "' for objects of type '" ++ parentType ++ "' must be a string, was '" ++
    field.dtypeName ++ "'"))

/-- ConduitUtil.cpp `getRequiredField`. -/
def getRequiredField (fieldName : String) (parent : Node) (parentType : String) :
    SinaResult Node :=
  if parent.hasChild fieldName then .ok (parent.fetchChild fieldName)
  else .error (.invalidArgument ("The field '" ++ fieldName ++
    "' is required for objects of type '" ++ parentType ++ "'"))

/-- ConduitUtil.cpp `getRequiredString`. -/
def getRequiredString (fieldName : String) (parent : Node) (parentType : String) :
    SinaResult String := do
  let field ← getRequiredField fieldName parent parentType
  getExpectedString field fieldName parentType

/-- ConduitUtil.cpp `getOptionalString`: empty string when the field is absent
or empty, otherwise the field must be a string. -/
def getOptionalString (fieldName : String) (parent : Node) (parentType : String) :
    SinaResult String :=
  if !parent.hasChild fieldName || (parent.fetchChild fieldName).isEmptyNode then
    .ok ""
  else getExpectedString (parent.fetchChild fieldName) fieldName parentType

/-- ConduitUtil.cpp `addStringsToNode`: create (or reuse) the named child and
append each string to it. -/
def addStringsToNode (parent : Node) (childName : String)
    (stringValues : List String) : Node :=
  parent.setChild childName
    (stringValues.foldl (fun acc s => acc.appendElement (Node.string s))
      (parent.fetchChild childName))

/-- ID.hpp `IDType`. -/
inductive IDType where
  | Local : IDType
  | Global : IDType
deriving DecidableEq

/-- ID.hpp `ID`: a value plus its locality. -/
structure ID where
  id : String
  type : IDType
deriving DecidableEq

/-- ID.cpp `extractIDFromObject`, embedded exactly as written: the second
branch re-tests `globalNameNode` (not `localNameNode`), so the Local branch
is dead code. -/
def extractIDFromObject (parentObject : Node) (localName globalName : String) :
    SinaResult ID :=
  let globalNameNode := parentObject.fetchChild globalName
  if !globalNameNode.isEmptyNode then
    .ok ⟨globalNameNode.asString, IDType.Global⟩
  else
    let localNameNode := parentObject.fetchChild localName
    if !globalNameNode.isEmptyNode then
      .ok ⟨localNameNode.asString, IDType.Local⟩
    else
      .error (.invalidArgument ("Could not find either of the required ID fields '"
        ++ localName ++ "' or '" ++ globalName ++ "'"))

/-- ID.hpp `IDField`: an ID plus the pair of field names used to serialize it. -/
structure IDField where
  value : ID
  localName : String
  globalName : String

/-- The `IDField(Node, localName, globalName)` constructor. -/
def IDField.fromNode (parentObject : Node) (localName globalName : String) :
    SinaResult IDField :=
  (extractIDFromObject parentObject localName globalName).map
    (fun v => ⟨v, localName, globalName⟩)

/-- ID.cpp `IDField::addTo`: emit only the field matching the locality. -/
def IDField.addTo (f : IDField) (object : Node) : Node :=
  object.setChild
    (if f.value.type = IDType.Global then f.globalName else f.localName)
    (Node.string f.value.id)

/-- Datum.hpp `ValueType`: the active kind of a Datum. -/
inductive ValueType where
  | String : ValueType
  | Scalar : ValueType
  | StringArray : ValueType
  | ScalarArray : ValueType
deriving DecidableEq

/-- Datum.hpp `Datum`: the kind tag, the four value slots (each slot keeps its
default when inactive, as the C++ members do), tags and units. -/
structure Datum where
  type : ValueType
  stringValue : String := ""
  scalarValue : Rat := 0
  stringArrayValue : List String := []
  scalarArrayValue : List Rat := []
  units : String := ""
  tags : List String := []
deriving DecidableEq

/-- The `Datum(std::string)` constructor. -/
def Datum.ofString (value : String) : Datum :=
  { type := ValueType.String, stringValue := value }

/-- The `Datum(double)` constructor. -/
def Datum.ofScalar (value : Rat) : Datum :=
  { type := ValueType.Scalar, scalarValue := value }

/-- The `Datum(std::vector of string)` constructor. -/
def Datum.ofStringArray (value : List String) : Datum :=
  { type := ValueType.StringArray, stringArrayValue := value }

/-- The `Datum(std::vector of double)` constructor. -/
def Datum.ofScalarArray (value : List Rat) : Datum :=
  { type := ValueType.ScalarArray, scalarArrayValue := value }

/-- Datum.cpp `Datum::setUnits`. -/
def Datum.setUnits (d : Datum) (units : String) : Datum :=
  { d with units := units }

/-- Datum.cpp `Datum::setTags`. -/
def Datum.setTags (d : Datum) (tags : List String) : Datum :=
  { d with tags := tags }

/-- The tag-array parsing loop shared by Datum.cpp and File.cpp: every child
must be a string, otherwise an invalid-argument error is raised. -/
def parseStringChildren (n : Node) : SinaResult (List String) :=
  n.childNodes.foldlM
    (fun acc tag =>
      if tag.isString then .ok (acc ++ [tag.asString])
      else .error (.invalidArgument ("The optional field 'tags' must be an array of strings. Found '"
        ++ tag.dtypeName ++ "' instead.")))
    []

/-- Datum.cpp `Datum::Datum(conduit::Node const &)`, embedded exactly as
written.  In particular the array branch iterates the children of `asNode`
(the whole datum object), not of `valueNode`, as the source does.  The header
sina/Datum.hpp that declares the `type` member is not among the source files;
in the string and number branches the kind is modelled from the spec
(string node yields the String kind, numeric node the Scalar kind), which the
rest of the source and its tests rely on. -/
def Datum.fromNode (asNode : Node) : SinaResult Datum := do
  let valueNode ← getRequiredField "value" asNode "data"
  let base ←
    if valueNode.isString then
      pure { type := ValueType.String, stringValue := valueNode.asString : Datum }
    else if valueNode.isNumber then
      pure { type := ValueType.Scalar, scalarValue := valueNode.asNumber : Datum }
    else if valueNode.isList then do
      let ty ←
        if valueNode.childNodes.length = 0 ∨
            (valueNode.childNodes.headD Node.empty).isNumber then
          pure ValueType.ScalarArray
        else if (valueNode.childNodes.headD Node.empty).isString then
          pure ValueType.StringArray
        else
          Except.error (.invalidArgument
            "The only valid types for an array 'value' are strings and numbers.")
      let arrays ← asNode.childNodes.foldlM
        (fun (acc : List String × List Rat) entry =>
          if entry.isString && ty == ValueType.StringArray then
            .ok (acc.1 ++ [entry.asString], acc.2)
          else if entry.isNumber && ty == ValueType.ScalarArray then
            .ok (acc.1, acc.2 ++ [entry.asNumber])
          else
            .error (.invalidArgument
              "If the required field 'value' is an array, it must consist of only strings or only numbers."))
        ([], [])
      pure { type := ty, stringArrayValue := arrays.1, scalarArrayValue := arrays.2 : Datum }
    else
      Except.error (.invalidArgument
        "The required field 'value' must be a string, double, list of strings, or list of doubles.")
  let units ← getOptionalString "units" asNode "data"
  let tags ←
    if asNode.hasChild "tags" then parseStringChildren (asNode.fetchChild "tags")
    else pure []
  return { base with units := units, tags := tags }

/-- Datum.cpp `Datum::toNode`, embedded exactly as written.  In particular,
when tags are present the emitted `tags` child is built from a copy of
`stringArrayValue` (not of `tags`), as the source does. -/
def Datum.toNode (d : Datum) : Node :=
  let asNode :=
    match d.type with
    | ValueType.Scalar => Node.empty.setChild "value" (Node.number d.scalarValue)
    | ValueType.String => Node.empty.setChild "value" (Node.string d.stringValue)
    | ValueType.ScalarArray =>
      Node.empty.setChild "value" (Node.list (d.scalarArrayValue.map Node.number))
    | ValueType.StringArray =>
      addStringsToNode Node.empty "value" d.stringArrayValue
  let asNode :=
    if d.tags.length > 0 then addStringsToNode asNode "tags" d.stringArrayValue
    else asNode
  if d.units ≠ "" then asNode.setChild "units" (Node.string d.units) else asNode

/-- File.hpp `File`: a URI with optional mimetype and tags. -/
structure File where
  uri : String
  mimeType : String := ""
  tags : List String := []
deriving DecidableEq

/-- File.cpp `File::setMimeType`. -/
def File.setMimeType (f : File) (mimeType : String) : File :=
  { f with mimeType := mimeType }

/-- File.cpp `File::setTags`. -/
def File.setTags (f : File) (tags : List String) : File :=
  { f with tags := tags }

/-- The `File(std::string, conduit::Node const &)` constructor: the URI is the
map key, the node carries the optional mimetype and tags (a missing `tags`
child fetches as empty, so it contributes no tags). -/
def File.fromNode (uri : String) (asNode : Node) : SinaResult File := do
  let mimeType ← getOptionalString "mimetype" asNode "File"
  let tags ← parseStringChildren (asNode.fetchChild "tags")
  return { uri := uri, mimeType := mimeType, tags := tags }

/-- File.cpp `File::toNode`: mimetype only when non-empty, tags only when
non-empty (and, unlike Datum, copied from the actual tags). -/
def File.toNode (f : File) : Node :=
  let asNode :=
    if f.mimeType ≠ "" then Node.empty.setChild "mimetype" (Node.string f.mimeType)
    else Node.empty
  if f.tags.length > 0 then addStringsToNode asNode "tags" f.tags else asNode

/-- Record.hpp `Record`.  The datum map and the file set are modelled as
lists carrying the uniqueness invariants of the C++ containers as separate
propositions.  Curve sets are kept as opaque named subtrees: the CurveSet
implementation is not among the source files, and the spec treats a curve-set
entry as a named `CurveSetObj` subtree of `curve_sets`. -/
structure Record where
  id : IDField
  type : String
  data : List (String × Datum) := []
  files : List File := []
  curveSets : List (String × Node) := []
  userDefined : Node := Node.empty

/-- The `Record(ID, std::string)` constructor: stores the ID with the
`local_id` and `id` field names. -/
def Record.basic (id : ID) (type : String) : Record :=
  { id := ⟨id, "local_id", "id"⟩, type := type }

/-- Record.cpp `Record::add(std::string, Datum)`: insert or replace under the
name, last write wins. -/
def Record.addDatum (r : Record) (name : String) (datum : Datum) : Record :=
  if (r.data.lookup name).isSome then
    { r with data := r.data.map (fun p => if p.1 = name then (name, datum) else p) }
  else
    { r with data := r.data ++ [(name, datum)] }

/-- Record.cpp `Record::add(File)`: erase any existing file with the same URI
(the set holds at most one), then insert the new file. -/
def Record.addFile (r : Record) (file : File) : Record :=
  { r with files := (r.files.eraseP (fun g => g.uri == file.uri)) ++ [file] }

/-- Record.cpp `Record::setUserDefinedContent`: plain assignment, no
validation of the stored node. -/
def Record.setUserDefinedContent (r : Record) (userDefined : Node) : Record :=
  { r with userDefined := userDefined }

/-- The `data` block of the `Record(Node)` constructor.  Here and in the
other blocks, map/set insertions keep the first entry on a duplicate key, as
`unordered_map::emplace` and `unordered_set::insert` do. -/
def parseRecordData (asNode : Node) : SinaResult (List (String × Datum)) :=
  if asNode.hasChild "data" then
    (asNode.fetchChild "data").objectFields.foldlM
      (fun (acc : List (String × Datum)) p => do
        let d ← Datum.fromNode p.2
        pure (if (acc.lookup p.1).isSome then acc else acc ++ [(p.1, d)]))
      []
  else pure []

/-- The `files` block of the `Record(Node)` constructor. -/
def parseRecordFiles (asNode : Node) : SinaResult (List File) :=
  if asNode.hasChild "files" then
    (asNode.fetchChild "files").objectFields.foldlM
      (fun (acc : List File) p => do
        let f ← File.fromNode p.1 p.2
        pure (if acc.any (fun g => g.uri == f.uri) then acc else acc ++ [f]))
      []
  else pure []

/-- The `curve_sets` block of the `Record(Node)` constructor, with each
curve-set entry kept as an opaque subtree. -/
def parseRecordCurveSets (asNode : Node) : List (String × Node) :=
  if asNode.hasChild "curve_sets" then
    (asNode.fetchChild "curve_sets").objectFields.foldl
      (fun (acc : List (String × Node)) p =>
        if (acc.lookup p.1).isSome then acc else acc ++ [p])
      []
  else []

/-- The `user_defined` block of the `Record(Node)` constructor: a present,
non-empty child must be an object. -/
def parseRecordUserDefined (asNode : Node) : SinaResult Node :=
  if asNode.hasChild "user_defined" then
    let userDefinedNode := asNode.fetchChild "user_defined"
    if !userDefinedNode.isEmptyNode then
      if !userDefinedNode.isObject then
        Except.error (.invalidArgument "User_defined must be an object Node")
      else pure userDefinedNode
    else pure Node.empty
  else pure Node.empty

/-- The `Record(conduit::Node const &)` constructor assembled from its
blocks: id and type first, then data, files, curve_sets and user_defined. -/
def Record.fromNode (asNode : Node) : SinaResult Record := do
  let id ← IDField.fromNode asNode "local_id" "id"
  let type ← getRequiredString "type" asNode "record"
  let data ← parseRecordData asNode
  let files ← parseRecordFiles asNode
  let curveSets := parseRecordCurveSets asNode
  let userDefined ← parseRecordUserDefined asNode
  return { id := id, type := type, data := data, files := files,
           curveSets := curveSets, userDefined := userDefined }

/-- Record.cpp `Record::toNode`: type and id always, then each optional child
only when its collection is non-empty. -/
def Record.toNode (r : Record) : Node :=
  let asNode := Node.empty.setChild "type" (Node.string r.type)
  let asNode := r.id.addTo asNode
  let asNode :=
    if r.files.isEmpty then asNode
    else asNode.setChild "files"
      (r.files.foldl (fun acc f => acc.setChild f.uri f.toNode) Node.empty)
  let asNode :=
    if r.data.isEmpty then asNode
    else asNode.setChild "data"
      (r.data.foldl (fun acc p => acc.setChild p.1 p.2.toNode) Node.empty)
  let asNode :=
    if r.curveSets.isEmpty then asNode
    else asNode.setChild "curve_sets"
      (r.curveSets.foldl (fun acc p => acc.setChild p.1 p.2) Node.empty)
  if r.userDefined.isEmptyNode then asNode
  else asNode.setChild "user_defined" r.userDefined

/-- Record.hpp `RecordLoader`: a registry from type-tag strings to
reconstruction functions. -/
structure RecordLoader where
  typeLoaders : List (String × (Node → SinaResult Record)) := []

/-- Record.cpp `RecordLoader::addTypeLoader`: register or overwrite the
loader for a tag. -/
def RecordLoader.addTypeLoader (loader : RecordLoader) (type : String)
    (f : Node → SinaResult Record) : RecordLoader :=
  { typeLoaders := setAssoc loader.typeLoaders type f }

/-- Record.cpp `RecordLoader::canLoad`. -/
def RecordLoader.canLoad (loader : RecordLoader) (type : String) : Bool :=
  (loader.typeLoaders.lookup type).isSome

/-- Record.cpp `RecordLoader::load`: dispatch on the record node's `type`
string; without a registered loader, fall back to the base Record
constructor. -/
def RecordLoader.load (loader : RecordLoader) (recordAsNode : Node) :
    SinaResult Record :=
  match loader.typeLoaders.lookup (recordAsNode.fetchChild "type").asString with
  | some f => f recordAsNode
  | none => Record.fromNode recordAsNode

/-- Run.hpp `Run`: a Record subtype with application, version and user. -/
structure Run where
  base : Record
  application : String
  version : String
  user : String

/-- Run.cpp `Run::toJson`: the base Record serialization, then the
application, version and user fields — each assigned unconditionally. -/
def Run.toNode (r : Run) : Node :=
  (((r.base.toNode).setChild "application" (Node.string r.application)).setChild
      "version" (Node.string r.version)).setChild "user" (Node.string r.user)

/-- Relationship.hpp `Relationship`: subject, predicate, object. -/
structure Relationship where
  subject : IDField
  predicate : String
  object : IDField

/-- The `Relationship(ID, std::string, ID)` constructor. -/
def Relationship.make (subject : ID) (predicate : String) (object : ID) :
    Relationship :=
  { subject := ⟨subject, "local_subject", "subject"⟩,
    predicate := predicate,
    object := ⟨object, "local_object", "object"⟩ }

/-- Relationship.cpp `Relationship::toJson`. -/
def Relationship.toNode (r : Relationship) : Node :=
  r.object.addTo (r.subject.addTo
    (Node.empty.setChild "predicate" (Node.string r.predicate)))

/-- Document.hpp `Document`: owned records and relationships in insertion
order. -/
structure Document where
  records : List Record := []
  relationships : List Relationship := []

/-- Document.cpp `Document::add(std::unique_ptr of Record)`. -/
def Document.addRecord (d : Document) (r : Record) : Document :=
  { d with records := d.records ++ [r] }

/-- Document.cpp `Document::add(Relationship)`. -/
def Document.addRelationship (d : Document) (r : Relationship) : Document :=
  { d with relationships := d.relationships ++ [r] }

/-- Document.cpp `Document::toNode`, embedded exactly as written: the
`records` and `relationships` children are only ever created by the append
inside each loop, so with no records and no relationships the returned node
has no children at all. -/
def Document.toNode (d : Document) : Node :=
  let document := d.records.foldl
    (fun acc r => acc.appendToListChild "records" r.toNode) Node.empty
  d.relationships.foldl
    (fun acc rel => acc.appendToListChild "relationships" rel.toNode) document

/-- The invariant of the C++ file set: at most one File per URI. -/
def urisPairwiseDistinct (files : List File) : Prop :=
  files.Pairwise (fun f g => f.uri ≠ g.uri)

/-- Decidable equality on fallible results with decidable components. -/
instance {ε α : Type} [DecidableEq ε] [DecidableEq α] : DecidableEq (Except ε α) :=
  fun a b =>
    match a, b with
    | .ok x, .ok y =>
      if h : x = y then .isTrue (by rw [h]) else .isFalse (by simp [h])
    | .error x, .error y =>
      if h : x = y then .isTrue (by rw [h]) else .isFalse (by simp [h])
    | .ok _, .error _ => .isFalse (by simp)
    | .error _, .ok _ => .isFalse (by simp)

theorem lookup_setAssoc_self {α : Type} (l : List (String × α)) (name : String)
    (v : α) : (setAssoc l name v).lookup name = some v := by
  induction l with
  | nil => simp [setAssoc, List.lookup]
  | cons p rest ih =>
    obtain ⟨k, w⟩ := p
    by_cases h : k = name
    · simp [setAssoc, h, List.lookup]
    · have hb : (name == k) = false := by simp [Ne.symm h]
      simp [setAssoc, h, List.lookup, hb, ih]

theorem lookup_setAssoc_ne {α : Type} (l : List (String × α))
    (name name' : String) (v : α) (h : name' ≠ name) :
    (setAssoc l name v).lookup name' = l.lookup name' := by
  have hb : (name' == name) = false := by simp [h]
  induction l with
  | nil => simp [setAssoc, List.lookup, hb]
  | cons p rest ih =>
    obtain ⟨k, w⟩ := p
    by_cases hk : k = name
    · subst hk
      simp [setAssoc, List.lookup, hb]
    · simp only [setAssoc, hk, if_false, List.lookup, ih]

theorem fetchChild_setChild_self (n : Node) (name : String) (v : Node) :
    (n.setChild name v).fetchChild name = v := by
  simp [Node.setChild, Node.fetchChild, Node.objectFields, lookup_setAssoc_self]

theorem fetchChild_setChild_ne (n : Node) (name name' : String) (v : Node)
    (h : name' ≠ name) :
    (n.setChild name v).fetchChild name' = n.fetchChild name' := by
  simp [Node.setChild, Node.fetchChild, Node.objectFields,
    lookup_setAssoc_ne _ _ _ _ h]

theorem hasChild_setChild_self (n : Node) (name : String) (v : Node) :
    (n.setChild name v).hasChild name = true := by
  simp [Node.setChild, Node.hasChild, Node.objectFields, lookup_setAssoc_self]

theorem hasChild_setChild_ne (n : Node) (name name' : String) (v : Node)
    (h : name' ≠ name) :
    (n.setChild name v).hasChild name' = n.hasChild name' := by
  simp [Node.setChild, Node.hasChild, Node.objectFields,
    lookup_setAssoc_ne _ _ _ _ h]

/-- C1: the claim says `Document::toTree` always emits both a `records` and a
`relationships` key, and that an empty Document serializes to two empty
arrays.  The code as written only creates those children inside the
per-element loops, so an empty Document serializes to a node with no children
at all — contradicting the repository's own test `Document.toNode_empty`.
This theorem evaluates the code at the failing input. -/
theorem document_empty_toNode_has_no_keys :
    (Document.mk [] []).toNode = Node.empty ∧
    (Document.mk [] []).toNode.hasChild "records" = false ∧
    (Document.mk [] []).toNode.hasChild "relationships" = false :=
  ⟨rfl, rfl, rfl⟩

/-- C3: the claim says a tree with only the local-name candidate field yields
a Local identifier.  In the code the second branch of `extractIDFromObject`
re-tests the global node instead of the local one, so a local-only object
falls through to the missing-field error — contradicting the repository's own
test `IDField.createFromNode_local`.  This theorem evaluates the code at the
failing input. -/
theorem extractID_localOnly_fails :
    extractIDFromObject (Node.object [("local_id", Node.string "x")])
      "local_id" "id" =
      Except.error (SinaError.invalidArgument
        "Could not find either of the required ID fields 'local_id' or 'id'") := by
  rfl

/-- C4: the claim says an all-numeric array value yields a number-array Datum
holding exactly those numbers.  The code infers the kind from the array, but
then iterates the children of the whole datum node instead of the children of
the value array, so the value array itself is visited as an entry and every
array-valued datum fails to parse — contradicting the repository's own test
`Datum.createFromJson`.  This theorem evaluates the code at the failing
input `{"value": [1, 2, 3]}`. -/
theorem datum_fromNode_numberArray_fails :
    Datum.fromNode (Node.object
        [("value", Node.list [Node.number 1, Node.number 2, Node.number 3])]) =
      Except.error (SinaError.invalidArgument
        "If the required field 'value' is an array, it must consist of only strings or only numbers.") := by
  rfl

/-- C2: the claim says `fromTree(toTree(x)) == x`, and in particular that a
Datum's tags survive the round trip.  `Datum::toNode` builds the emitted
`tags` child from a copy of `stringArrayValue` instead of `tags`, so a scalar
Datum with a tag serializes its tags as an empty list and the round trip
drops them.  This theorem evaluates the code at the failing input (a scalar
Datum with value 3 and tags `["t"]`). -/
theorem datum_roundtrip_loses_tags :
    ((Datum.ofScalar 3).setTags ["t"]).tags = ["t"] ∧
    Datum.fromNode ((Datum.ofScalar 3).setTags ["t"]).toNode =
      Except.ok { type := ValueType.Scalar, scalarValue := 3, tags := [] } :=
  ⟨rfl, rfl⟩

/-- C5 counterexample: the claim says `setUserDefinedContent` fails with
InvalidArgument whenever the root of the value is not an object.  The setter
in the code is a plain assignment with no validation, so a string-rooted
value is accepted and stored. -/
theorem setUserDefined_accepts_nonobject :
    ((Record.basic ⟨"x", IDType.Global⟩ "t").setUserDefinedContent
        (Node.string "hi")).userDefined = Node.string "hi" :=
  rfl

/-- C5 (amended): `setUserDefinedContent` accepts every tree value, of any
root kind, and stores it as the record's user-defined content, leaving all
other fields unchanged; the object-root check is performed only when a
Record is constructed from a tree. -/
theorem setUserDefined_stores_any (r : Record) (v : Node) :
    (r.setUserDefinedContent v).userDefined = v ∧
    (r.setUserDefinedContent v).id = r.id ∧
    (r.setUserDefinedContent v).type = r.type ∧
    (r.setUserDefinedContent v).data = r.data ∧
    (r.setUserDefinedContent v).files = r.files ∧
    (r.setUserDefinedContent v).curveSets = r.curveSets :=
  ⟨rfl, rfl, rfl, rfl, rfl, rfl⟩

/-- C6 counterexample: the claim says a Run with empty `version` and `user`
serializes with no `version` key and no `user` key.  `Run::toJson` assigns
both fields unconditionally, so the keys are present holding empty strings. -/
theorem run_empty_version_user_still_emitted :
    (Run.mk (Record.basic ⟨"the id", IDType.Global⟩ "run") "the app" "" "").toNode.hasChild
        "version" = true ∧
    (Run.mk (Record.basic ⟨"the id", IDType.Global⟩ "run") "the app" "" "").toNode.hasChild
        "user" = true ∧
    (Run.mk (Record.basic ⟨"the id", IDType.Global⟩ "run") "the app" "" "").toNode.fetchChild
        "version" = Node.string "" ∧
    (Run.mk (Record.basic ⟨"the id", IDType.Global⟩ "run") "the app" "" "").toNode.fetchChild
        "user" = Node.string "" :=
  ⟨rfl, rfl, rfl, rfl⟩

/-- C6 (amended): null suppression does not extend to Run's optional fields:
for every Run, serialization emits both a `version` and a `user` key, bound
to the stored (possibly empty) strings. -/
theorem run_toNode_always_emits_version_user (r : Run) :
    r.toNode.hasChild "version" = true ∧
    r.toNode.hasChild "user" = true ∧
    r.toNode.fetchChild "version" = Node.string r.version ∧
    r.toNode.fetchChild "user" = Node.string r.user := by
  unfold Run.toNode
  refine ⟨?_, hasChild_setChild_self _ _ _, ?_, fetchChild_setChild_self _ _ _⟩
  · rw [hasChild_setChild_ne _ _ _ _ (by decide)]
    exact hasChild_setChild_self _ _ _
  · rw [fetchChild_setChild_ne _ _ _ _ (by decide)]
    exact fetchChild_setChild_self _ _ _

/-- C7: when both candidate fields are present with string values, identifier
resolution takes the global field first: the result is the global field's
string with Global locality, regardless of the local field's value. -/
theorem extractID_global_precedence (parentObject : Node)
    (localName globalName l g : String)
    (hg : parentObject.fetchChild globalName = Node.string g)
    (hl : parentObject.fetchChild localName = Node.string l) :
    extractIDFromObject parentObject localName globalName =
      Except.ok ⟨g, IDType.Global⟩ := by
  simp [extractIDFromObject, hg, Node.isEmptyNode, Node.asString]

/-- Witness for C7 at a concrete node carrying both fields. -/
theorem extractID_global_precedence_witness :
    (Node.object [("local_id", Node.string "loc"),
        ("id", Node.string "glob")]).fetchChild "id" = Node.string "glob" ∧
    (Node.object [("local_id", Node.string "loc"),
        ("id", Node.string "glob")]).fetchChild "local_id" = Node.string "loc" ∧
    extractIDFromObject
        (Node.object [("local_id", Node.string "loc"), ("id", Node.string "glob")])
        "local_id" "id" = Except.ok ⟨"glob", IDType.Global⟩ :=
  ⟨rfl, rfl, extractID_global_precedence _ "local_id" "id" "loc" "glob" rfl rfl⟩

theorem hasChild_of_fetchChild_string (n : Node) (name s : String)
    (h : n.fetchChild name = Node.string s) : n.hasChild name = true := by
  unfold Node.fetchChild at h
  unfold Node.hasChild
  cases hl : n.objectFields.lookup name with
  | none =>
    rw [hl] at h
    exact Node.noConfusion h
  | some v => simp [hl]

theorem except_bind_ok {α β : Type} (x : SinaResult α) (f : α → SinaResult β)
    (b : β) (h : x >>= f = Except.ok b) : ∃ a, x = Except.ok a ∧ f a = Except.ok b := by
  cases x with
  | error e => simp [Bind.bind, Except.bind] at h
  | ok a =>
    refine ⟨a, rfl, ?_⟩
    simpa [Bind.bind, Except.bind] using h

/-- C8: for a record node whose `type` field is a string with no registered
loader, `RecordLoader::load` does not fail on account of the unknown type: it
returns exactly the base-Record construction from the node (so every standard
field is whatever the base constructor preserves), and any record it returns
carries that very type string. -/
theorem recordLoader_unknownType_fallback (loader : RecordLoader) (n : Node)
    (t : String) (htype : n.fetchChild "type" = Node.string t)
    (hunknown : loader.typeLoaders.lookup t = none) :
    loader.load n = Record.fromNode n ∧
    ∀ r : Record, loader.load n = Except.ok r → r.type = t := by
  have hload : loader.load n = Record.fromNode n := by
    unfold RecordLoader.load
    rw [htype]
    simp [Node.asString, hunknown]
  refine ⟨hload, ?_⟩
  intro r hr
  rw [hload] at hr
  have htstr : getRequiredString "type" n "record" = Except.ok t := by
    unfold getRequiredString getRequiredField
    rw [hasChild_of_fetchChild_string n "type" t htype]
    simp [htype, Bind.bind, Except.bind, getExpectedString, Node.isString,
      Node.asString]
  unfold Record.fromNode at hr
  obtain ⟨idf, hid, hr⟩ := except_bind_ok _ _ _ hr
  obtain ⟨ty, hty, hr⟩ := except_bind_ok _ _ _ hr
  rw [htstr] at hty
  obtain rfl : ty = t := by injection hty with h; exact h.symm
  obtain ⟨dataV, hdata, hr⟩ := except_bind_ok _ _ _ hr
  obtain ⟨filesV, hfiles, hr⟩ := except_bind_ok _ _ _ hr
  obtain ⟨udV, hud, hr⟩ := except_bind_ok _ _ _ hr
  simp only [pure, Except.pure, Except.ok.injEq] at hr
  rw [← hr]

/-- Witness for C8: an empty loader on the node with type `bespoke` and
global id `x` falls back to the base Record with that type. -/
theorem recordLoader_unknownType_fallback_witness :
    (Node.object [("type", Node.string "bespoke"),
        ("id", Node.string "x")]).fetchChild "type" = Node.string "bespoke" ∧
    (RecordLoader.mk []).typeLoaders.lookup "bespoke" = none ∧
    (RecordLoader.mk []).load (Node.object [("type", Node.string "bespoke"),
        ("id", Node.string "x")]) =
      Record.fromNode (Node.object [("type", Node.string "bespoke"),
        ("id", Node.string "x")]) ∧
    ({ id := ⟨⟨"x", IDType.Global⟩, "local_id", "id"⟩, type := "bespoke" } :
        Record).type = "bespoke" :=
  ⟨rfl, rfl,
    (recordLoader_unknownType_fallback (RecordLoader.mk [])
      (Node.object [("type", Node.string "bespoke"), ("id", Node.string "x")])
      "bespoke" rfl rfl).1,
    (recordLoader_unknownType_fallback (RecordLoader.mk [])
      (Node.object [("type", Node.string "bespoke"), ("id", Node.string "x")])
      "bespoke" rfl rfl).2
      { id := ⟨⟨"x", IDType.Global⟩, "local_id", "id"⟩, type := "bespoke" } rfl⟩

theorem mem_eraseP_uri_ne (l : List File) (u : String)
    (hwf : l.Pairwise (fun f g => f.uri ≠ g.uri)) :
    ∀ x ∈ l.eraseP (fun g => g.uri == u), x.uri ≠ u := by
  induction l with
  | nil => simp
  | cons f rest ih =>
    rcases List.pairwise_cons.mp hwf with ⟨hf, hrest⟩
    by_cases hu : f.uri = u
    · have he : (f :: rest).eraseP (fun g => g.uri == u) = rest := by
        simp [List.eraseP_cons, hu]
      rw [he]
      intro x hx hxu
      exact hf x hx (by rw [hu, hxu])
    · have hb : (f.uri == u) = false := by simp [hu]
      have he : (f :: rest).eraseP (fun g => g.uri == u) =
          f :: rest.eraseP (fun g => g.uri == u) := by
        simp [List.eraseP_cons, hb]
      rw [he]
      intro x hx
      rcases List.mem_cons.mp hx with rfl | hx'
      · exact hu
      · exact ih hrest x hx'

theorem pairwise_erase_append (l : List File) (f : File)
    (hwf : urisPairwiseDistinct l) :
    urisPairwiseDistinct ((l.eraseP (fun g => g.uri == f.uri)) ++ [f]) := by
  unfold urisPairwiseDistinct at *
  apply List.pairwise_append.mpr
  refine ⟨hwf.sublist (List.eraseP_sublist _), List.pairwise_singleton .., ?_⟩
  intro x hx y hy
  rcases List.mem_singleton.mp hy with rfl
  exact mem_eraseP_uri_ne l y.uri hwf x hx

theorem filter_erase_append (l : List File) (f : File)
    (hwf : urisPairwiseDistinct l) :
    ((l.eraseP (fun g => g.uri == f.uri)) ++ [f]).filter
      (fun g => g.uri == f.uri) = [f] := by
  rw [List.filter_append]
  have h1 : (l.eraseP (fun g => g.uri == f.uri)).filter
      (fun g => g.uri == f.uri) = [] := by
    rw [List.filter_eq_nil_iff]
    intro a ha
    simp [mem_eraseP_uri_ne l f.uri hwf a ha]
  rw [h1]
  simp [List.filter]

/-- C9: a Record holds at most one File per URI, and `add(File)` preserves
this invariant; adding two files with the same URI leaves exactly one file
for that URI — the second one, metadata included. -/
theorem record_addFile_unique_replace (r : Record) (f1 f2 : File)
    (huri : f1.uri = f2.uri) (hwf : urisPairwiseDistinct r.files) :
    urisPairwiseDistinct (r.addFile f1).files ∧
    urisPairwiseDistinct ((r.addFile f1).addFile f2).files ∧
    ((r.addFile f1).addFile f2).files.filter (fun g => g.uri == f2.uri) = [f2] := by
  have h1 := pairwise_erase_append r.files f1 hwf
  exact ⟨h1, pairwise_erase_append _ f2 h1, filter_erase_append _ f2 h1⟩

/-- Witness for C9: adding `u` as text/plain then `u` as image/png to a fresh
record leaves exactly the png file under `u`. -/
theorem record_addFile_unique_replace_witness :
    (File.mk "u" "text/plain" []).uri = (File.mk "u" "image/png" []).uri ∧
    urisPairwiseDistinct (Record.basic ⟨"x", IDType.Global⟩ "t").files ∧
    (urisPairwiseDistinct ((Record.basic ⟨"x", IDType.Global⟩ "t").addFile
        (File.mk "u" "text/plain" [])).files ∧
     urisPairwiseDistinct (((Record.basic ⟨"x", IDType.Global⟩ "t").addFile
        (File.mk "u" "text/plain" [])).addFile (File.mk "u" "image/png" [])).files ∧
     (((Record.basic ⟨"x", IDType.Global⟩ "t").addFile
        (File.mk "u" "text/plain" [])).addFile
          (File.mk "u" "image/png" [])).files.filter
        (fun g => g.uri == (File.mk "u" "image/png" []).uri) =
       [File.mk "u" "image/png" []]) :=
  ⟨rfl, List.Pairwise.nil,
    record_addFile_unique_replace (Record.basic ⟨"x", IDType.Global⟩ "t")
      (File.mk "u" "text/plain" []) (File.mk "u" "image/png" []) rfl
      List.Pairwise.nil⟩

theorem hasChild_addStringsToNode_ne (parent : Node) (name name' : String)
    (strs : List String) (h : name' ≠ name) :
    (addStringsToNode parent name strs).hasChild name' = parent.hasChild name' := by
  unfold addStringsToNode
  exact hasChild_setChild_ne _ _ _ _ h

theorem datum_toNode_base_hasChild (d : Datum) (name : String)
    (h : name ≠ "value") :
    (match d.type with
      | ValueType.Scalar => Node.empty.setChild "value" (Node.number d.scalarValue)
      | ValueType.String => Node.empty.setChild "value" (Node.string d.stringValue)
      | ValueType.ScalarArray =>
        Node.empty.setChild "value" (Node.list (d.scalarArrayValue.map Node.number))
      | ValueType.StringArray =>
        addStringsToNode Node.empty "value" d.stringArrayValue).hasChild name
      = false := by
  cases d.type <;> simp only [addStringsToNode] <;>
    rw [hasChild_setChild_ne _ _ _ _ h] <;> rfl

theorem datum_toNode_hasChild_units (d : Datum) :
    d.toNode.hasChild "units" = !(d.units == "") := by
  unfold Datum.toNode
  by_cases hu : d.units = ""
  · rw [if_neg (by simp [hu]), hu]
    by_cases ht : d.tags.length > 0
    · rw [if_pos ht]
      rw [hasChild_addStringsToNode_ne _ _ _ _ (by decide)]
      rw [datum_toNode_base_hasChild d _ (by decide)]
      rfl
    · rw [if_neg ht, datum_toNode_base_hasChild d _ (by decide)]
      rfl
  · rw [if_pos hu, hasChild_setChild_self]
    have hb : (d.units == "") = false := by simp [hu]
    rw [hb]
    rfl

theorem file_toNode_hasChild_mimetype (f : File) :
    f.toNode.hasChild "mimetype" = !(f.mimeType == "") := by
  unfold File.toNode
  by_cases ht : f.tags.length > 0
  · rw [if_pos ht, hasChild_addStringsToNode_ne _ _ _ _ (by decide)]
    by_cases hm : f.mimeType = ""
    · rw [if_neg (by simp [hm]), hm]
      rfl
    · rw [if_pos hm, hasChild_setChild_self]
      have hb : (f.mimeType == "") = false := by simp [hm]
      rw [hb]
      rfl
  · rw [if_neg ht]
    by_cases hm : f.mimeType = ""
    · rw [if_neg (by simp [hm]), hm]
      rfl
    · rw [if_pos hm, hasChild_setChild_self]
      have hb : (f.mimeType == "") = false := by simp [hm]
      rw [hb]
      rfl

theorem getOptionalString_absent (fieldName : String) (parent : Node)
    (parentType : String) (h : parent.hasChild fieldName = false) :
    getOptionalString fieldName parent parentType = Except.ok "" := by
  unfold getOptionalString
  rw [h]
  rfl

/-- C10: an optional string field set to the empty string is indistinguishable
from an absent one: Datum serialization emits a `units` child exactly when the
stored units string is non-empty, File serialization emits a `mimetype` child
exactly when the stored mimetype is non-empty, and deserializing a node that
lacks the field yields the empty string (so the empty-valued and absent forms
produce the same tree and the same value after a round trip). -/
theorem optionalString_empty_indistinguishable :
    (∀ d : Datum, d.toNode.hasChild "units" = !(d.units == "")) ∧
    (∀ f : File, f.toNode.hasChild "mimetype" = !(f.mimeType == "")) ∧
    (∀ n : Node, n.hasChild "units" = false →
      getOptionalString "units" n "data" = Except.ok "") ∧
    (∀ n : Node, n.hasChild "mimetype" = false →
      getOptionalString "mimetype" n "File" = Except.ok "") :=
  ⟨datum_toNode_hasChild_units, file_toNode_hasChild_mimetype,
    fun n h => getOptionalString_absent "units" n "data" h,
    fun n h => getOptionalString_absent "mimetype" n "File" h⟩

/-- Witness for C10: a units-less scalar Datum emits no `units` child, a
mimetype-less File emits no `mimetype` child, and reading either optional
field back from such a tree yields the empty string. -/
theorem optionalString_empty_indistinguishable_witness :
    (Datum.ofScalar 3).toNode.hasChild "units" = !((Datum.ofScalar 3).units == "") ∧
    (File.mk "u" "" []).toNode.hasChild "mimetype" = false ∧
    getOptionalString "units" (Datum.ofScalar 3).toNode "data" = Except.ok "" ∧
    getOptionalString "mimetype" (File.mk "u" "" []).toNode "File" = Except.ok "" :=
  ⟨optionalString_empty_indistinguishable.1 (Datum.ofScalar 3),
    by
      rw [optionalString_empty_indistinguishable.2.1 (File.mk "u" "" [])]
      rfl,
    optionalString_empty_indistinguishable.2.2.1 _ rfl,
    optionalString_empty_indistinguishable.2.2.2 _ rfl⟩

end Sina
